import Mathlib

/-!
Verification development for the library management service
(`library_service.py`).  The business-logic functions are shallowly
embedded as executable Lean definitions over an explicit state type.

Conventions of the embedding:
* Time is measured in integer seconds (a naive `datetime` value becomes
  an `Int`); `timedelta(days = 14)` becomes `14 * 86400` seconds, and
  `timedelta.days` (floor of the difference in days) becomes `Int.fdiv
  (difference) 86400`.
* Money is measured in integer cents.  Every fee the code can produce is
  an exact multiple of 50 cents (the Python floats 0.50 and 1.00 are
  dyadic, so the float arithmetic in the source is exact); `$0.50`
  becomes `50`, `$15.00` becomes `1500`, and Python `round(x, 2)` is the
  identity on whole-cent values.
* Each fallible storage write takes an extra `Bool` argument telling
  whether the write succeeds, mirroring the success flag the storage
  layer returns; a failed write leaves the state unchanged.
-/

namespace LibraryService

/-- Prefix test on character lists, mirroring Python `str.startswith`. -/
def isPre : List Char → List Char → Bool
  | [], _ => true
  | _ :: _, [] => false
  | a :: as, b :: bs => a == b && isPre as bs

/-- Substring containment on character lists, mirroring Python
`needle in haystack` for strings. -/
def hasSub (needle : List Char) : List Char → Bool
  | [] => isPre needle []
  | c :: rest => isPre needle (c :: rest) || hasSub needle rest

/-- Lower-casing of a character list, mirroring Python `str.lower`
(ASCII letters, which is all the repository's data uses). -/
def lowerL (l : List Char) : List Char := l.map Char.toLower

/-- Mirrors Python `str.isdigit`: non-empty and every character a digit. -/
def isDigitStr (s : String) : Bool := !s.data.isEmpty && s.data.all Char.isDigit

/-- Python whitespace characters stripped by `str.strip`. -/
def isWS (c : Char) : Bool :=
  c == ' ' || c == '\t' || c == '\n' || c == '\r' || c == '\x0b' || c == '\x0c'

/-- Drops leading whitespace from a character list. -/
def dropWS : List Char → List Char
  | [] => []
  | c :: rest => if isWS c then dropWS rest else c :: rest

/-- Mirrors Python `str.strip`: removes leading and trailing whitespace. -/
def stripStr (s : String) : String :=
  ⟨(dropWS (dropWS s.data).reverse).reverse⟩

/-- Two-digit zero padding, as in `strftime` fields `%m` and `%d`. -/
def pad2 (n : Int) : String := if n < 10 then "0" ++ toString n else toString n

/-- Four-digit zero padding, as in the `strftime` field `%Y`. -/
def pad4 (n : Int) : String :=
  if n < 10 then "000" ++ toString n
  else if n < 100 then "00" ++ toString n
  else if n < 1000 then "0" ++ toString n
  else toString n

/-- Proleptic-Gregorian civil date (year, month, day) of a day count
relative to 1970-01-01, the calendar arithmetic Python `datetime`
uses. -/
def civilFromDays (z0 : Int) : Int × Int × Int :=
  let z := z0 + 719468
  let era := Int.fdiv z 146097
  let doe := z - era * 146097
  let yoe := Int.fdiv (doe - Int.fdiv doe 1460 + Int.fdiv doe 36524 - Int.fdiv doe 146096) 365
  let y := yoe + era * 400
  let doy := doe - (365 * yoe + Int.fdiv yoe 4 - Int.fdiv yoe 100)
  let mp := Int.fdiv (5 * doy + 2) 153
  let d := doy - Int.fdiv (153 * mp + 2) 5 + 1
  let m := mp + (if mp < 10 then 3 else -9)
  (y + (if m ≤ 2 then 1 else 0), m, d)

/-- Embedding of `due_date.strftime("%Y-%m-%d")` on a timestamp in
seconds: the ISO date `YYYY-MM-DD`. -/
def isoDate (t : Int) : String :=
  let c := civilFromDays (Int.fdiv t 86400)
  pad4 c.1 ++ "-" ++ pad2 c.2.1 ++ "-" ++ pad2 c.2.2

/-- Embedding of the Python format `{x:.2f}` on a non-negative amount of
whole cents. -/
def formatMoney (cents : Int) : String :=
  toString (Int.fdiv cents 100) ++ "." ++ pad2 (Int.emod cents 100)

/-- A catalog row (table `books`). -/
structure Book where
  id : Nat
  title : String
  author : String
  isbn : String
  total_copies : Int
  available_copies : Int
  deriving Repr, DecidableEq

/-- A row of the `borrow_records` table; `return_date = none` marks an
open record. -/
structure BorrowRecord where
  patron_id : String
  book_id : Nat
  borrow_date : Int
  due_date : Int
  return_date : Option Int
  deriving Repr, DecidableEq

/-- The whole storage state seen by the service functions. -/
structure LibState where
  books : List Book
  records : List BorrowRecord
  deriving Repr, DecidableEq

/-- A joined row returned by the storage accessor for a patron's
currently borrowed books: record fields plus the book title and the
computed overdue flag. -/
structure BorrowedBookRow where
  book_id : Nat
  title : String
  borrow_date : Int
  due_date : Int
  is_overdue : Bool
  deriving Repr, DecidableEq

/-- A joined row of a patron's full borrowing history. -/
structure HistoryRow where
  book_id : Nat
  title : String
  return_date : Option Int
  deriving Repr, DecidableEq

/-- Result of the late-fee calculation: `fee_amount` in cents. -/
structure FeeResult where
  fee_amount : Int
  days_overdue : Int
  deriving Repr, DecidableEq

/-- Result of the patron status report. -/
structure CurrRow where
  book_id : Nat
  title : String
  borrow_date : Int
  due_date : Int
  deriving Repr, DecidableEq

structure StatusReport where
  curr_borrowed_books : List CurrRow
  total_late_fees_owed : Int
  num_books_currently_borrowed : Nat
  borrowing_history : List HistoryRow
  deriving Repr, DecidableEq

/-- Modelled from the spec: the storage accessor `get-book-by-id`
(`database.py` is not under `src/`); fetches the catalog row with the
given id. -/
def get_book_by_id (st : LibState) (book_id : Nat) : Option Book :=
  st.books.find? (fun b => b.id == book_id)

/-- Modelled from the spec: the storage accessor `get-book-by-isbn`
(`database.py` is not under `src/`); fetches the catalog row with the
given ISBN. -/
def get_book_by_isbn (st : LibState) (isbn : String) : Option Book :=
  st.books.find? (fun b => b.isbn == isbn)

/-- Title of the book a record points at (empty when the row is
missing), used by the joined accessors. -/
def titleOf (st : LibState) (book_id : Nat) : String :=
  ((get_book_by_id st book_id).map Book.title).getD ""

/-- The predicate marking a record as one of the given patron's open
records. -/
def openFor (patron_id : String) (r : BorrowRecord) : Bool :=
  r.patron_id == patron_id && r.return_date.isNone

/-- Modelled from the spec: the patron's open records (`return_date`
unset), the underlying rows of `get-patron-open-records`. -/
def openRecordsFor (st : LibState) (patron_id : String) : List BorrowRecord :=
  st.records.filter (openFor patron_id)

/-- The joined row the storage layer builds for one open record: record
fields plus the book title and the overdue flag (glossary: overdue
means now > due_date). -/
def rowOf (st : LibState) (now : Int) (r : BorrowRecord) : BorrowedBookRow :=
  { book_id := r.book_id
    title := titleOf st r.book_id
    borrow_date := r.borrow_date
    due_date := r.due_date
    is_overdue := decide (r.due_date < now) }

/-- Modelled from the spec: the storage accessor
`get_patron_borrowed_books` (`database.py` is not under `src/`); the
patron's open records joined with the book title and overdue flag. -/
def get_patron_borrowed_books (st : LibState) (patron_id : String) (now : Int) :
    List BorrowedBookRow :=
  (openRecordsFor st patron_id).map (rowOf st now)

/-- Modelled from the spec: the storage accessor
`get_patron_borrow_count` (`database.py` is not under `src/`); the
number of the patron's open records. -/
def get_patron_borrow_count (st : LibState) (patron_id : String) : Nat :=
  (openRecordsFor st patron_id).length

/-- Modelled from the spec: the storage accessor `get_all_patron_record`
(`database.py` is not under `src/`); all of the patron's records, open
and closed, joined with the book title. -/
def get_all_patron_record (st : LibState) (patron_id : String) : List HistoryRow :=
  (st.records.filter (fun r => r.patron_id == patron_id)).map (fun r =>
    { book_id := r.book_id, title := titleOf st r.book_id, return_date := r.return_date })

/-- Next fresh book id handed out by the storage layer on insert. -/
def nextBookId (st : LibState) : Nat :=
  st.books.foldl (fun a b => max a b.id) 0 + 1

/-- Modelled from the spec: the storage accessor `insert_book`
(`database.py` is not under `src/`); appends one catalog row. -/
def insert_book (st : LibState) (title author isbn : String)
    (total_copies available_copies : Int) : LibState :=
  { st with books := st.books ++
      [{ id := nextBookId st, title := title, author := author, isbn := isbn
         total_copies := total_copies, available_copies := available_copies }] }

/-- Modelled from the spec: the storage accessor
`update_book_availability(delta)` (`database.py` is not under `src/`);
adds `delta` to the `available_copies` of the row with the given id. -/
def update_book_availability (st : LibState) (book_id : Nat) (delta : Int) : LibState :=
  { st with books := st.books.map (fun b =>
      if b.id == book_id then { b with available_copies := b.available_copies + delta } else b) }

/-- Modelled from the spec: the storage accessor `insert_borrow_record`
(`database.py` is not under `src/`); appends one open borrow record. -/
def insert_borrow_record (st : LibState) (patron_id : String) (book_id : Nat)
    (borrow_date due_date : Int) : LibState :=
  { st with records := st.records ++
      [{ patron_id := patron_id, book_id := book_id, borrow_date := borrow_date
         due_date := due_date, return_date := none }] }

/-- Modelled from the spec: the record-level effect of
`update_borrow_record_return_date` (`database.py` is not under `src/`);
stamps `return_date` on the patron's open record for the book (the
first matching row — the data model allows at most one). -/
def setReturnDateFirst : List BorrowRecord → String → Nat → Int → List BorrowRecord
  | [], _, _, _ => []
  | r :: rest, p, b, t =>
    if openFor p r && r.book_id == b then
      { r with return_date := some t } :: rest
    else
      r :: setReturnDateFirst rest p b t

/-- Embedding of `add_book_to_catalog` from `library_service.py`.  The
`isbn` argument is `Option String` so that the `isbn is None` check is
expressible; `insertOk` is the success flag of the storage insert. -/
def add_book_to_catalog (st : LibState) (title author : String) (isbn : Option String)
    (total_copies : Int) (insertOk : Bool) : LibState × Bool × String :=
  if stripStr title == "" then (st, false, "Title is required.")
  else if 200 < (stripStr title).length then (st, false, "Title must be less than 200 characters.")
  else if stripStr author == "" then (st, false, "Author is required.")
  else if 100 < (stripStr author).length then (st, false, "Author must be less than 100 characters.")
  else
    match isbn with
    | none => (st, false, "ISBN cannot be None. Must only be comprised of digits in a string.")
    | some i =>
      if i.length != 13 then (st, false, "ISBN must be exactly 13 digits.")
      else if i.data.contains ' ' then (st, false, "ISBN cannot have spaces.")
      else if !isDigitStr i then (st, false, "ISBN must be digits")
      else if total_copies ≤ 0 then (st, false, "Total copies must be a positive integer.")
      else
        match get_book_by_isbn st i with
        | some _ => (st, false, "A book with this ISBN already exists.")
        | none =>
          if insertOk then
            (insert_book st (stripStr title) (stripStr author) i total_copies total_copies, true,
              "Book \"" ++ stripStr title ++ "\" has been successfully added to the catalog.")
          else (st, false, "Database error occurred while adding the book.")

/-- Embedding of `borrow_book_by_patron` from `library_service.py`;
`now` is the value of `datetime.now()`, `insertOk` and `availOk` the
success flags of the two storage writes. -/
def borrow_book_by_patron (st : LibState) (patron_id : String) (book_id : Nat)
    (now : Int) (insertOk availOk : Bool) : LibState × Bool × String :=
  if patron_id == "" || !isDigitStr patron_id || patron_id.length != 6 then
    (st, false, "Invalid patron ID. Must be exactly 6 digits.")
  else
    match get_book_by_id st book_id with
    | none => (st, false, "Book not found.")
    | some book =>
      if book.available_copies ≤ 0 then (st, false, "This book is currently not available.")
      else if (get_patron_borrowed_books st patron_id now).any
          (fun r => r.book_id == book_id) then
        (st, false, "You have already borrowed a copy of this book.")
      else if 5 ≤ get_patron_borrow_count st patron_id then
        (st, false, "You have reached the maximum borrowing limit of 5 books.")
      else
        let due_date := now + 14 * 86400
        if !insertOk then (st, false, "Database error occurred while creating borrow record.")
        else
          let st1 := insert_borrow_record st patron_id book_id now due_date
          if !availOk then (st1, false, "Database error occurred while updating book availability.")
          else
            (update_book_availability st1 book_id (-1), true,
              "Successfully borrowed \"" ++ book.title ++ "\". Due date: " ++
                isoDate due_date ++ ".")

/-- Embedding of `calculate_late_fee_for_book` from
`library_service.py`; fee amounts in cents.  The source's two loops
over the matched records leave the last matched row's fields in
scope, hence `getLast?`. -/
def calculate_late_fee_for_book (st : LibState) (patron_id : String) (book_id : Nat)
    (now : Int) : FeeResult :=
  let patron_current_books := get_patron_borrowed_books st patron_id now
  let borrowed_book := patron_current_books.filter (fun r => r.book_id == book_id)
  match borrowed_book.getLast? with
  | none => { fee_amount := 0, days_overdue := 0 }
  | some row =>
    if !row.is_overdue then { fee_amount := 0, days_overdue := 0 }
    else
      let num_days_overdue := Int.fdiv (now - row.due_date) 86400
      if num_days_overdue ≤ 7 then
        { fee_amount := num_days_overdue * 50, days_overdue := num_days_overdue }
      else
        let overdue_amt := 7 * 50 + (num_days_overdue - 7) * 100
        if overdue_amt < 1500 then
          { fee_amount := overdue_amt, days_overdue := num_days_overdue }
        else
          { fee_amount := 1500, days_overdue := num_days_overdue }

/-- Embedding of `return_book_by_patron` from `library_service.py`;
`availOk` and `retOk` are the success flags of the availability update
and the return-date update. -/
def return_book_by_patron (st : LibState) (patron_id : String) (book_id : Nat)
    (now : Int) (availOk retOk : Bool) : LibState × Bool × String :=
  let patron_current_books := get_patron_borrowed_books st patron_id now
  let borrowed_book := patron_current_books.filter (fun r => r.book_id == book_id)
  if borrowed_book.isEmpty then (st, false, "You have not currently borrowed this book.")
  else if !availOk then (st, false, "Database error occurred while updating book availability.")
  else
    let st1 := update_book_availability st book_id 1
    let calculate_fee := calculate_late_fee_for_book st1 patron_id book_id now
    if !retOk then (st1, false, "Database error occurred while updating book return date.")
    else
      let st2 := { st1 with records := setReturnDateFirst st1.records patron_id book_id now }
      if calculate_fee.fee_amount == 0 then
        (st2, true,
          "You have successfully returned your book. There are no late fees on this book. Thank you!")
      else
        (st2, true,
          "You have successfully returned your book. This book is " ++
            toString calculate_fee.days_overdue ++ " days late and you owe $" ++
            formatMoney calculate_fee.fee_amount ++ " in late fees for this book.")

/-- Embedding of `search_books_in_catalog` from `library_service.py`:
the loop appends, in catalog order, the rows matching the search type
(dictionary rows always carry the `isbn`, `title` and `author` keys, so
the `in b` guards of the source are identically true). -/
def search_books_in_catalog (search_term search_type : String) :
    List Book → List Book
  | [] => []
  | b :: rest =>
    let tail := search_books_in_catalog search_term search_type rest
    if search_type == "isbn" then
      if b.isbn == search_term then b :: tail else tail
    else if search_type == "title" then
      if hasSub (lowerL search_term.data) (lowerL b.title.data) then b :: tail else tail
    else if search_type == "author" then
      if hasSub (lowerL search_term.data) (lowerL b.author.data) then b :: tail else tail
    else tail

/-- Python `round(x, 2)` on a whole-cent amount: the identity (every
fee the code produces is an exact multiple of one cent, so no rounding
ever occurs). -/
def round2 (cents : Int) : Int := cents

/-- Embedding of `get_patron_status_report` from `library_service.py`
(a pure read: the source performs no storage write). -/
def get_patron_status_report (st : LibState) (patron_id : String) (now : Int) :
    StatusReport :=
  let patron_current_books := get_patron_borrowed_books st patron_id now
  let currently_borrowed := patron_current_books.map (fun r =>
    { book_id := r.book_id, title := r.title, borrow_date := r.borrow_date
      due_date := r.due_date : CurrRow })
  let num_currently_borrowed := currently_borrowed.length
  let book_fees := currently_borrowed.map (fun c =>
    calculate_late_fee_for_book st patron_id c.book_id now)
  let overdue_fees := book_fees.map FeeResult.fee_amount
  let total_overdue := overdue_fees.sum
  let borrowing_history := get_all_patron_record st patron_id
  { curr_borrowed_books := currently_borrowed
    total_late_fees_owed := round2 total_overdue
    num_books_currently_borrowed := num_currently_borrowed
    borrowing_history := borrowing_history }

/-- Embedding of `refund_late_fee_payment` from
`services/library_service.py`; the injectable payment gateway is a
function from transaction id and amount (in cents) to its
`(success, message)` pair. -/
def refund_late_fee_payment (transaction_id : String) (amount : Int)
    (gateway : String → Int → Bool × String) : Bool × String :=
  if transaction_id == "" || !isPre "txn_".data transaction_id.data then
    (false, "Invalid transaction ID.")
  else if amount ≤ 0 then (false, "Refund amount must be greater than 0.")
  else if 1500 < amount then (false, "Refund amount exceeds maximum late fee.")
  else
    let r := gateway transaction_id amount
    if r.1 then (true, r.2) else (false, "Refund failed: " ++ r.2)

end LibraryService

namespace LibraryService

/-- The `available_copies` field of the catalog row with the given id
(0 when absent). -/
def availOf (st : LibState) (book_id : Nat) : Int :=
  ((get_book_by_id st book_id).map Book.available_copies).getD 0

/-- Number of open borrow records for a given book, across all
patrons. -/
def countOpen (l : List BorrowRecord) (book_id : Nat) : Nat :=
  (l.filter (fun r => r.book_id == book_id && r.return_date.isNone)).length

/-- The availability invariant of the data model: every book has
`available_copies = total_copies` minus its number of open borrow
records. -/
def availInvariant (st : LibState) : Prop :=
  ∀ b ∈ st.books, b.available_copies = b.total_copies - (countOpen st.records b.id : Int)

/-- A small state with one catalog row and one open record, used by
concrete witnesses. -/
def stOne : LibState :=
  ⟨[⟨1, "T", "A", "1111111111111", 3, 2⟩], [⟨"123456", 1, 0, 1209600, none⟩]⟩

/-- A state where patron `123456` holds five open records, among them
one for book 1, whose only copy is checked out (`available_copies`
is 0). -/
def ceSt3 : LibState :=
  ⟨[⟨1, "Book One", "Author A", "1111111111111", 1, 0⟩],
   [⟨"123456", 1, 0, 1209600, none⟩, ⟨"123456", 2, 0, 1209600, none⟩,
    ⟨"123456", 3, 0, 1209600, none⟩, ⟨"123456", 4, 0, 1209600, none⟩,
    ⟨"123456", 5, 0, 1209600, none⟩]⟩

/-- A state where patron `123456` holds five open records and both the
held book 1 and the fresh book 6 have copies available. -/
def wSt3 : LibState :=
  ⟨[⟨1, "Book One", "Author A", "1111111111111", 2, 1⟩,
    ⟨6, "Book Six", "Author B", "6666666666666", 1, 1⟩],
   [⟨"123456", 1, 0, 1209600, none⟩, ⟨"123456", 2, 0, 1209600, none⟩,
    ⟨"123456", 3, 0, 1209600, none⟩, ⟨"123456", 4, 0, 1209600, none⟩,
    ⟨"123456", 5, 0, 1209600, none⟩]⟩

/-- A state satisfying the availability invariant (2 copies, 1 open
record, 1 available), used to witness the preservation theorem. -/
def stInv : LibState :=
  ⟨[⟨1, "T", "A", "1111111111111", 2, 1⟩], [⟨"123456", 1, 0, 1209600, none⟩]⟩

/-- A one-book state with no records, used to witness a successful
borrow. -/
def stB : LibState :=
  ⟨[⟨1, "Gatsby", "Fitzgerald", "1111111111111", 1, 1⟩], []⟩

/-! ### Helper lemmas -/

lemma hasSub_nil (hay : List Char) : hasSub [] hay = true := by
  cases hay <;> simp [hasSub, isPre]

lemma search_isbn_eq (t : String) (l : List Book) :
    search_books_in_catalog t "isbn" l = l.filter (fun b => b.isbn == t) := by
  induction l with
  | nil => rfl
  | cons b rest ih => simp [search_books_in_catalog, ih, List.filter_cons]

lemma search_title_eq (t : String) (l : List Book) :
    search_books_in_catalog t "title" l =
      l.filter (fun b => hasSub (lowerL t.data) (lowerL b.title.data)) := by
  induction l with
  | nil => rfl
  | cons b rest ih => simp [search_books_in_catalog, ih, List.filter_cons]

lemma search_author_eq (t : String) (l : List Book) :
    search_books_in_catalog t "author" l =
      l.filter (fun b => hasSub (lowerL t.data) (lowerL b.author.data)) := by
  induction l with
  | nil => rfl
  | cons b rest ih => simp [search_books_in_catalog, ih, List.filter_cons]

lemma search_other_eq (t ty : String) (l : List Book) (h1 : ty ≠ "isbn")
    (h2 : ty ≠ "title") (h3 : ty ≠ "author") :
    search_books_in_catalog t ty l = [] := by
  induction l with
  | nil => rfl
  | cons b rest ih => simp [search_books_in_catalog, ih, beq_iff_eq, h1, h2, h3]

/-! ### Claim theorems -/

/-- C7: `search_books_in_catalog` with type `isbn` returns exactly the
catalog rows whose `isbn` equals the term; with `title` or `author` the
rows whose field contains the term case-insensitively; rows are returned
unmodified in catalog order (a `filter` of the catalog); any other
search type yields the empty list. -/
theorem search_books_spec (t : String) (cat : List Book) :
    search_books_in_catalog t "isbn" cat = cat.filter (fun b => b.isbn == t) ∧
    search_books_in_catalog t "title" cat =
      cat.filter (fun b => hasSub (lowerL t.data) (lowerL b.title.data)) ∧
    search_books_in_catalog t "author" cat =
      cat.filter (fun b => hasSub (lowerL t.data) (lowerL b.author.data)) ∧
    ∀ ty : String, ty ≠ "title" → ty ≠ "author" → ty ≠ "isbn" →
      search_books_in_catalog t ty cat = [] :=
  ⟨search_isbn_eq t cat, search_title_eq t cat, search_author_eq t cat,
   fun ty h1 h2 h3 => search_other_eq t ty cat h3 h1 h2⟩

theorem search_books_spec_witness :
    search_books_in_catalog "a" "xyz"
      [⟨1, "T", "A", "1111111111111", 1, 1⟩] = [] :=
  (search_books_spec "a" [⟨1, "T", "A", "1111111111111", 1, 1⟩]).2.2.2 "xyz"
    (by decide) (by decide) (by decide)

/-- C10: an empty search term with type `title` or `author` returns the
whole catalog (the empty string is a substring of everything), while
with type `isbn` it matches only rows whose ISBN is the empty string —
none, when every ISBN has 13 digits. -/
theorem search_empty_term_spec (cat : List Book) :
    search_books_in_catalog "" "title" cat = cat ∧
    search_books_in_catalog "" "author" cat = cat ∧
    ((∀ b ∈ cat, b.isbn.length = 13) → search_books_in_catalog "" "isbn" cat = []) := by
  refine ⟨?_, ?_, fun h => ?_⟩
  · rw [search_title_eq]
    exact List.filter_eq_self.mpr fun b _ => hasSub_nil _
  · rw [search_author_eq]
    exact List.filter_eq_self.mpr fun b _ => hasSub_nil _
  · rw [search_isbn_eq]
    refine List.filter_eq_nil_iff.mpr fun b hb => ?_
    have hlen := h b hb
    simp only [beq_iff_eq]
    intro he
    rw [he] at hlen
    simp at hlen

theorem search_empty_term_spec_witness :
    search_books_in_catalog "" "isbn" [⟨1, "T", "A", "1111111111111", 1, 1⟩] = [] :=
  (search_empty_term_spec [⟨1, "T", "A", "1111111111111", 1, 1⟩]).2.2 (by decide)

/-- C9: `refund_late_fee_payment` rejects, without consulting the
payment gateway (the result is a constant independent of it), any
transaction id lacking the `txn_` prefix, any non-positive amount and
any amount above 15.00; inputs passing all three checks reach the
gateway call, whose answer determines the result. -/
theorem refund_validation_spec (txn : String) (amount : Int)
    (g : String → Int → Bool × String) :
    (isPre "txn_".data txn.data = false →
      refund_late_fee_payment txn amount g = (false, "Invalid transaction ID.")) ∧
    (isPre "txn_".data txn.data = true → amount ≤ 0 →
      refund_late_fee_payment txn amount g = (false, "Refund amount must be greater than 0.")) ∧
    (isPre "txn_".data txn.data = true → 0 < amount → 1500 < amount →
      refund_late_fee_payment txn amount g = (false, "Refund amount exceeds maximum late fee.")) ∧
    (isPre "txn_".data txn.data = true → 0 < amount → amount ≤ 1500 →
      refund_late_fee_payment txn amount g =
        (if (g txn amount).1 then (true, (g txn amount).2)
         else (false, "Refund failed: " ++ (g txn amount).2))) := by
  have hne : isPre "txn_".data txn.data = true → txn ≠ "" := by
    intro h he
    rw [he] at h
    exact absurd h (by decide)
  refine ⟨fun h => ?_, fun h h0 => ?_, fun h h0 h15 => ?_, fun h h0 h15 => ?_⟩
  · simp [refund_late_fee_payment, h]
  · simp [refund_late_fee_payment, h, hne h, h0, beq_iff_eq]
  · simp [refund_late_fee_payment, h, hne h, not_le.mpr h0, h15, beq_iff_eq]
  · simp [refund_late_fee_payment, h, hne h, not_le.mpr h0, not_lt.mpr h15, beq_iff_eq]

theorem refund_validation_spec_witness :
    refund_late_fee_payment "txn_1" 500 (fun _ _ => (true, "Refund done")) =
      (true, "Refund done") := by
  have h := (refund_validation_spec "txn_1" 500 (fun _ _ => (true, "Refund done"))).2.2.2
    (by decide) (by decide) (by decide)
  simpa using h

end LibraryService

namespace LibraryService

/-- C5 counterexample: the title `" "` is a non-empty string of at most
200 characters, so under the claim the title checks pass and (all other
inputs being valid against an empty catalog) the insert should happen;
the code instead validates the whitespace-stripped title and rejects the
call with the title-required message, writing nothing. -/
theorem add_book_counterexample :
    (" " : String) ≠ "" ∧ (" " : String).length ≤ 200 ∧
    ("Author" : String) ≠ "" ∧ ("Author" : String).length ≤ 100 ∧
    ("1234567890123" : String).length = 13 ∧
    ("1234567890123" : String).data.contains ' ' = false ∧
    isDigitStr "1234567890123" = true ∧
    add_book_to_catalog ⟨[], []⟩ " " "Author" (some "1234567890123") 1 true =
      (⟨[], []⟩, false, "Title is required.") := by
  decide

end LibraryService

namespace LibraryService

/-- C5 (amended): `add_book_to_catalog` validates, in order, title
non-blank and at most 200 characters after stripping surrounding
whitespace, author non-blank and at most 100 characters after
stripping, isbn non-null, exactly 13 characters, no spaces, all digits,
positive copies, isbn not already present; the first failing check
wins with the documented message and no storage write, and on full
success exactly one book row with `available_copies = total_copies`
(and stripped title and author) is inserted. -/
theorem add_book_validation_spec (st : LibState) (title author : String)
    (isbn : Option String) (copies : Int) (iOk : Bool) :
    (stripStr title = "" →
      add_book_to_catalog st title author isbn copies iOk =
        (st, false, "Title is required.")) ∧
    (stripStr title ≠ "" → 200 < (stripStr title).length →
      add_book_to_catalog st title author isbn copies iOk =
        (st, false, "Title must be less than 200 characters.")) ∧
    (stripStr title ≠ "" → (stripStr title).length ≤ 200 → stripStr author = "" →
      add_book_to_catalog st title author isbn copies iOk =
        (st, false, "Author is required.")) ∧
    (stripStr title ≠ "" → (stripStr title).length ≤ 200 → stripStr author ≠ "" →
      100 < (stripStr author).length →
      add_book_to_catalog st title author isbn copies iOk =
        (st, false, "Author must be less than 100 characters.")) ∧
    (stripStr title ≠ "" → (stripStr title).length ≤ 200 → stripStr author ≠ "" →
      (stripStr author).length ≤ 100 → isbn = none →
      add_book_to_catalog st title author isbn copies iOk =
        (st, false, "ISBN cannot be None. Must only be comprised of digits in a string.")) ∧
    (∀ i, stripStr title ≠ "" → (stripStr title).length ≤ 200 → stripStr author ≠ "" →
      (stripStr author).length ≤ 100 → isbn = some i → i.length ≠ 13 →
      add_book_to_catalog st title author isbn copies iOk =
        (st, false, "ISBN must be exactly 13 digits.")) ∧
    (∀ i, stripStr title ≠ "" → (stripStr title).length ≤ 200 → stripStr author ≠ "" →
      (stripStr author).length ≤ 100 → isbn = some i → i.length = 13 →
      i.data.contains ' ' = true →
      add_book_to_catalog st title author isbn copies iOk =
        (st, false, "ISBN cannot have spaces.")) ∧
    (∀ i, stripStr title ≠ "" → (stripStr title).length ≤ 200 → stripStr author ≠ "" →
      (stripStr author).length ≤ 100 → isbn = some i → i.length = 13 →
      i.data.contains ' ' = false → isDigitStr i = false →
      add_book_to_catalog st title author isbn copies iOk =
        (st, false, "ISBN must be digits")) ∧
    (∀ i, stripStr title ≠ "" → (stripStr title).length ≤ 200 → stripStr author ≠ "" →
      (stripStr author).length ≤ 100 → isbn = some i → i.length = 13 →
      i.data.contains ' ' = false → isDigitStr i = true → copies ≤ 0 →
      add_book_to_catalog st title author isbn copies iOk =
        (st, false, "Total copies must be a positive integer.")) ∧
    (∀ i b, stripStr title ≠ "" → (stripStr title).length ≤ 200 → stripStr author ≠ "" →
      (stripStr author).length ≤ 100 → isbn = some i → i.length = 13 →
      i.data.contains ' ' = false → isDigitStr i = true → 0 < copies →
      get_book_by_isbn st i = some b →
      add_book_to_catalog st title author isbn copies iOk =
        (st, false, "A book with this ISBN already exists.")) ∧
    (∀ i, stripStr title ≠ "" → (stripStr title).length ≤ 200 → stripStr author ≠ "" →
      (stripStr author).length ≤ 100 → isbn = some i → i.length = 13 →
      i.data.contains ' ' = false → isDigitStr i = true → 0 < copies →
      get_book_by_isbn st i = none →
      add_book_to_catalog st title author isbn copies true =
        (insert_book st (stripStr title) (stripStr author) i copies copies, true,
          "Book \"" ++ stripStr title ++ "\" has been successfully added to the catalog.")) := by
  refine ⟨fun h1 => ?_, fun h1 h2 => ?_, fun h1 h2 h3 => ?_, fun h1 h2 h3 h4 => ?_,
    fun h1 h2 h3 h4 h5 => ?_, fun i h1 h2 h3 h4 h5 h6 => ?_,
    fun i h1 h2 h3 h4 h5 h6 h7 => ?_, fun i h1 h2 h3 h4 h5 h6 h7 h8 => ?_,
    fun i h1 h2 h3 h4 h5 h6 h7 h8 h9 => ?_, fun i b h1 h2 h3 h4 h5 h6 h7 h8 h9 h10 => ?_,
    fun i h1 h2 h3 h4 h5 h6 h7 h8 h9 h10 => ?_⟩
  · simp [add_book_to_catalog, h1]
  · simp [add_book_to_catalog, beq_iff_eq, h1, h2]
  · simp [add_book_to_catalog, beq_iff_eq, h1, not_lt.mpr h2, h3]
  · simp [add_book_to_catalog, beq_iff_eq, h1, not_lt.mpr h2, h3, h4]
  · subst h5
    simp [add_book_to_catalog, beq_iff_eq, h1, not_lt.mpr h2, h3, not_lt.mpr h4]
  · subst h5
    simp [add_book_to_catalog, beq_iff_eq, h1, not_lt.mpr h2, h3, not_lt.mpr h4, h6]
  · subst h5
    have h7m : ' ' ∈ i.data := by simpa using h7
    simp [add_book_to_catalog, beq_iff_eq, h1, not_lt.mpr h2, h3, not_lt.mpr h4, h6, h7m]
  · subst h5
    have h7m : ' ' ∉ i.data := by simpa using h7
    simp [add_book_to_catalog, beq_iff_eq, h1, not_lt.mpr h2, h3, not_lt.mpr h4, h6, h7m, h8]
  · subst h5
    have h7m : ' ' ∉ i.data := by simpa using h7
    simp [add_book_to_catalog, beq_iff_eq, h1, not_lt.mpr h2, h3, not_lt.mpr h4, h6, h7m, h8, h9]
  · subst h5
    have h7m : ' ' ∉ i.data := by simpa using h7
    simp [add_book_to_catalog, beq_iff_eq, h1, not_lt.mpr h2, h3, not_lt.mpr h4, h6, h7m, h8,
      not_le.mpr h9, h10]
  · subst h5
    have h7m : ' ' ∉ i.data := by simpa using h7
    simp [add_book_to_catalog, beq_iff_eq, h1, not_lt.mpr h2, h3, not_lt.mpr h4, h6, h7m, h8,
      not_le.mpr h9, h10]

theorem add_book_validation_spec_witness :
    add_book_to_catalog ⟨[], []⟩ "The Great Gatsby " "Fitzgerald" (some "1234567890123") 3 true =
      (⟨[⟨1, "The Great Gatsby", "Fitzgerald", "1234567890123", 3, 3⟩], []⟩, true,
        "Book \"The Great Gatsby\" has been successfully added to the catalog.") := by
  have h := (add_book_validation_spec ⟨[], []⟩ "The Great Gatsby " "Fitzgerald"
      (some "1234567890123") 3 true).2.2.2.2.2.2.2.2.2.2 "1234567890123"
    (by decide) (by decide) (by decide) (by decide) (by decide) (by decide)
    (by decide) (by decide) (by decide) (by decide)
  rw [h]
  decide

end LibraryService

namespace LibraryService

lemma borrowed_filter_eq (st : LibState) (p : String) (now : Int) (bid : Nat) :
    (get_patron_borrowed_books st p now).filter (fun r => r.book_id == bid) =
      (st.records.filter (fun r => openFor p r && r.book_id == bid)).map (rowOf st now) := by
  unfold get_patron_borrowed_books openRecordsFor
  rw [List.filter_map, List.filter_filter]
  congr 1
  exact List.filter_congr fun a _ => by simp [Function.comp, rowOf, Bool.and_comm]

/-- C1: when the patron's open record for the book is `rec`, the fee
calculator returns, for overdue records (due date strictly before now),
days overdue `d = ⌊(now − due) / 86400⌋` with fee `d · $0.50` for
`d ≤ 7`, `7 · $0.50 + (d − 7) · $1.00` while that raw value is below
$15.00, and $15.00 once the raw value reaches the cap; a record not yet
overdue, or no open record at all, yields fee 0.00 and 0 days (amounts
in cents). -/
theorem calculate_late_fee_spec (st : LibState) (p : String) (bid : Nat) (now : Int) :
    (st.records.filter (fun r => openFor p r && r.book_id == bid) = [] →
      calculate_late_fee_for_book st p bid now = ⟨0, 0⟩) ∧
    (∀ rec, st.records.filter (fun r => openFor p r && r.book_id == bid) = [rec] →
      (now ≤ rec.due_date → calculate_late_fee_for_book st p bid now = ⟨0, 0⟩) ∧
      (rec.due_date < now →
        calculate_late_fee_for_book st p bid now =
          (let d := Int.fdiv (now - rec.due_date) 86400
           if d ≤ 7 then ⟨d * 50, d⟩
           else if 7 * 50 + (d - 7) * 100 < 1500 then ⟨7 * 50 + (d - 7) * 100, d⟩
           else ⟨1500, d⟩))) := by
  have hb := borrowed_filter_eq st p now bid
  constructor
  · intro h
    simp only [calculate_late_fee_for_book]
    rw [hb, h]
    rfl
  · intro rec h
    constructor
    · intro hle
      simp only [calculate_late_fee_for_book]
      rw [hb, h]
      simp [rowOf, not_lt.mpr hle]
    · intro hlt
      have hd : decide (rec.due_date < now) = true := decide_eq_true hlt
      simp only [calculate_late_fee_for_book]
      rw [hb, h]
      simp only [List.map_cons, List.map_nil, List.getLast?_singleton, rowOf, hd, Bool.not_true]
      rw [if_neg (by decide)]

theorem calculate_late_fee_spec_witness :
    calculate_late_fee_for_book
      ⟨[⟨1, "T", "A", "1111111111111", 3, 2⟩], [⟨"123456", 1, 0, 1209600, none⟩]⟩
      "123456" 1 (1209600 + 3 * 86400 + 5) = ⟨150, 3⟩ ∧
    calculate_late_fee_for_book
      ⟨[⟨1, "T", "A", "1111111111111", 3, 2⟩], [⟨"123456", 1, 0, 1209600, none⟩]⟩
      "123456" 1 (1209600 + 8 * 86400 + 5) = ⟨450, 8⟩ ∧
    calculate_late_fee_for_book
      ⟨[⟨1, "T", "A", "1111111111111", 3, 2⟩], [⟨"123456", 1, 0, 1209600, none⟩]⟩
      "123456" 1 (1209600 + 19 * 86400 + 5) = ⟨1500, 19⟩ ∧
    calculate_late_fee_for_book
      ⟨[⟨1, "T", "A", "1111111111111", 3, 2⟩], [⟨"123456", 1, 0, 1209600, none⟩]⟩
      "123456" 1 1209600 = ⟨0, 0⟩ ∧
    calculate_late_fee_for_book
      ⟨[⟨1, "T", "A", "1111111111111", 3, 2⟩], [⟨"123456", 1, 0, 1209600, none⟩]⟩
      "999999" 1 (1209600 + 3 * 86400 + 5) = ⟨0, 0⟩ := by
  refine ⟨?_, ?_, ?_, ?_, ?_⟩
  · rw [((calculate_late_fee_spec _ "123456" 1 (1209600 + 3 * 86400 + 5)).2
      ⟨"123456", 1, 0, 1209600, none⟩ (by decide)).2 (by decide)]
    decide
  · rw [((calculate_late_fee_spec _ "123456" 1 (1209600 + 8 * 86400 + 5)).2
      ⟨"123456", 1, 0, 1209600, none⟩ (by decide)).2 (by decide)]
    decide
  · rw [((calculate_late_fee_spec _ "123456" 1 (1209600 + 19 * 86400 + 5)).2
      ⟨"123456", 1, 0, 1209600, none⟩ (by decide)).2 (by decide)]
    decide
  · exact ((calculate_late_fee_spec _ "123456" 1 1209600).2
      ⟨"123456", 1, 0, 1209600, none⟩ (by decide)).1 (by decide)
  · exact (calculate_late_fee_spec _ "999999" 1 (1209600 + 3 * 86400 + 5)).1 (by decide)

end LibraryService

namespace LibraryService

lemma get_book_by_id_update (st : LibState) (bid x : Nat) (δ : Int) :
    get_book_by_id (update_book_availability st bid δ) x =
      (get_book_by_id st x).map
        (fun b => if b.id == bid then { b with available_copies := b.available_copies + δ } else b) := by
  obtain ⟨books, records⟩ := st
  unfold get_book_by_id update_book_availability
  simp only []
  induction books with
  | nil => rfl
  | cons b t ih =>
    have hid : (if b.id == bid then { b with available_copies := b.available_copies + δ } else b).id
        = b.id := by split <;> rfl
    cases hbx : (b.id == x) with
    | true => simp only [List.map_cons, List.find?_cons, hid, hbx, Option.map_some']
    | false => simp only [List.map_cons, List.find?_cons, hid, hbx, ih]

lemma records_update (st : LibState) (bid : Nat) (δ : Int) :
    (update_book_availability st bid δ).records = st.records := rfl

lemma borrowed_nonempty (st : LibState) (p : String) (now : Int) (bid : Nat)
    (hmatch : ∃ r ∈ st.records, openFor p r = true ∧ r.book_id = bid) :
    ((get_patron_borrowed_books st p now).filter (fun row => row.book_id == bid)).isEmpty
      = false := by
  obtain ⟨r, hr, hopen, hbid⟩ := hmatch
  have hmem : r ∈ st.records.filter (fun r => openFor p r && r.book_id == bid) :=
    List.mem_filter.mpr ⟨hr, by simp [hopen, hbid]⟩
  rw [List.isEmpty_eq_false, borrowed_filter_eq]
  intro hcon
  rw [List.map_eq_nil_iff] at hcon
  rw [hcon] at hmem
  exact List.not_mem_nil r hmem

/-- C4: when the patron has an open record for the book (so the match
succeeds), the availability increment succeeds but the return-date
write fails, `return_book_by_patron` reports failure with the
return-date database-error message while the availability increment is
kept and the borrow records are untouched (the record is still open):
no rollback happens. -/
theorem return_date_failure_spec (st : LibState) (p : String) (bid : Nat) (now : Int)
    (hmatch : ∃ r ∈ st.records, openFor p r = true ∧ r.book_id = bid) :
    (return_book_by_patron st p bid now true false).2.1 = false ∧
    (return_book_by_patron st p bid now true false).2.2 =
      "Database error occurred while updating book return date." ∧
    (return_book_by_patron st p bid now true false).1.records = st.records ∧
    (∀ b, get_book_by_id st bid = some b →
      get_book_by_id (return_book_by_patron st p bid now true false).1 bid =
        some { b with available_copies := b.available_copies + 1 }) := by
  have hE := borrowed_nonempty st p now bid hmatch
  have hres : return_book_by_patron st p bid now true false =
      (update_book_availability st bid 1, false,
        "Database error occurred while updating book return date.") := by
    simp only [return_book_by_patron, hE]
    rfl
  refine ⟨by rw [hres], by rw [hres], by rw [hres, records_update], fun b hb => ?_⟩
  rw [hres]
  simp only [get_book_by_id_update, hb, Option.map_some']
  rw [if_pos (List.find?_some hb)]

theorem return_date_failure_spec_witness :
    (return_book_by_patron stOne "123456" 1 1300000 true false).2.1 = false ∧
    (return_book_by_patron stOne "123456" 1 1300000 true false).2.2 =
      "Database error occurred while updating book return date." ∧
    (return_book_by_patron stOne "123456" 1 1300000 true false).1.records = stOne.records ∧
    get_book_by_id (return_book_by_patron stOne "123456" 1 1300000 true false).1 1 =
      some ⟨1, "T", "A", "1111111111111", 3, 3⟩ := by
  have h := return_date_failure_spec stOne "123456" 1 1300000 (by decide)
  exact ⟨h.1, h.2.1, h.2.2.1, h.2.2.2 ⟨1, "T", "A", "1111111111111", 3, 2⟩ (by decide)⟩

end LibraryService

namespace LibraryService

lemma isPre_append (l t : List Char) : isPre l (l ++ t) = true := by
  induction l with
  | nil => rfl
  | cons a as ih => simp [isPre, ih]

lemma hasSub_of_isPre (n hay : List Char) (h : isPre n hay = true) : hasSub n hay = true := by
  cases hay with
  | nil => exact h
  | cons c t => simp [hasSub, h]

lemma hasSub_cons (n : List Char) (c : Char) (t : List Char) (h : hasSub n t = true) :
    hasSub n (c :: t) = true := by
  simp [hasSub, h]

lemma hasSub_append_left (n pre hay : List Char) (h : hasSub n hay = true) :
    hasSub n (pre ++ hay) = true := by
  induction pre with
  | nil => exact h
  | cons c t ih => exact hasSub_cons n c (t ++ hay) ih

lemma hasSub_self_append (n t : List Char) : hasSub n (n ++ t) = true :=
  hasSub_of_isPre _ _ (isPre_append n t)

lemma borrow_success_eq (st st' : LibState) (p : String) (bid : Nat) (now : Int)
    (iOk aOk : Bool) (msg : String)
    (h : borrow_book_by_patron st p bid now iOk aOk = (st', true, msg)) :
    ∃ book, get_book_by_id st bid = some book ∧
      st' = update_book_availability (insert_borrow_record st p bid now (now + 14 * 86400))
        bid (-1) ∧
      msg = "Successfully borrowed \"" ++ book.title ++ "\". Due date: " ++
        isoDate (now + 14 * 86400) ++ "." := by
  simp only [borrow_book_by_patron] at h
  split at h
  · simp at h
  split at h
  · simp at h
  rename_i book hbook
  split at h
  · simp at h
  split at h
  · simp at h
  split at h
  · simp at h
  split at h
  · simp at h
  split at h
  · simp at h
  injection h with h1 h2
  injection h2 with h2 h3
  exact ⟨book, hbook, h1.symm, h3.symm⟩

/-- C6: a successful borrow appends exactly one open record with
`borrow_date = now` and `due_date = now + 14` days, decrements the
book's `available_copies` by one, and returns a message containing the
book's title and the due date in ISO `YYYY-MM-DD` format. -/
theorem borrow_success_spec (st st' : LibState) (p : String) (bid : Nat) (now : Int)
    (iOk aOk : Bool) (msg : String)
    (h : borrow_book_by_patron st p bid now iOk aOk = (st', true, msg)) :
    st'.records = st.records ++ [⟨p, bid, now, now + 14 * 86400, none⟩] ∧
    ∃ book, get_book_by_id st bid = some book ∧
      availOf st' bid = availOf st bid - 1 ∧
      msg = "Successfully borrowed \"" ++ book.title ++ "\". Due date: " ++
        isoDate (now + 14 * 86400) ++ "." ∧
      hasSub book.title.data msg.data = true ∧
      hasSub (isoDate (now + 14 * 86400)).data msg.data = true := by
  obtain ⟨book, hbook, hst, hmsg⟩ := borrow_success_eq st st' p bid now iOk aOk msg h
  subst hst
  subst hmsg
  refine ⟨rfl, book, hbook, ?_, rfl, ?_, ?_⟩
  · have hup := get_book_by_id_update
      (insert_borrow_record st p bid now (now + 14 * 86400)) bid bid (-1)
    have hins : get_book_by_id (insert_borrow_record st p bid now (now + 14 * 86400)) bid =
        get_book_by_id st bid := rfl
    rw [availOf, availOf, hup, hins, hbook, Option.map_some', Option.map_some',
      if_pos (List.find?_some hbook)]
    simp [Int.sub_eq_add_neg]
  · simp only [String.data_append, List.append_assoc]
    exact hasSub_append_left _ _ _ (hasSub_self_append _ _)
  · simp only [String.data_append, List.append_assoc]
    exact hasSub_append_left _ _ _ (hasSub_append_left _ _ _
      (hasSub_append_left _ _ _ (hasSub_self_append _ _)))

theorem borrow_success_spec_witness :
    (⟨[⟨1, "Gatsby", "Fitzgerald", "1111111111111", 1, 0⟩],
      [⟨"123456", 1, 0, 1209600, none⟩]⟩ : LibState).records =
        stB.records ++ [⟨"123456", 1, 0, 1209600, none⟩] ∧
    availOf ⟨[⟨1, "Gatsby", "Fitzgerald", "1111111111111", 1, 0⟩],
      [⟨"123456", 1, 0, 1209600, none⟩]⟩ 1 = availOf stB 1 - 1 := by
  have h := borrow_success_spec stB
    ⟨[⟨1, "Gatsby", "Fitzgerald", "1111111111111", 1, 0⟩], [⟨"123456", 1, 0, 1209600, none⟩]⟩
    "123456" 1 0 true true
    "Successfully borrowed \"Gatsby\". Due date: 1970-01-15." (by decide)
  obtain ⟨hr, book, hb, havail, hmsg, hts, his⟩ := h
  exact ⟨hr, havail⟩

end LibraryService

namespace LibraryService

lemma any_borrowed_iff (st : LibState) (p : String) (now : Int) (bid : Nat) :
    ((get_patron_borrowed_books st p now).any (fun r => r.book_id == bid) = true) ↔
      ∃ r ∈ st.records, openFor p r = true ∧ r.book_id = bid := by
  unfold get_patron_borrowed_books openRecordsFor
  rw [List.any_eq_true]
  constructor
  · rintro ⟨x, hx, hb⟩
    obtain ⟨r, hrfil, rfl⟩ := List.mem_map.mp hx
    obtain ⟨hmem, hopen⟩ := List.mem_filter.mp hrfil
    exact ⟨r, hmem, hopen, by simpa [rowOf] using hb⟩
  · rintro ⟨r, hr, ho, hb⟩
    exact ⟨rowOf st now r, List.mem_map_of_mem _ (List.mem_filter.mpr ⟨hr, ho⟩),
      by simpa [rowOf] using hb⟩

lemma isDigitStr_ne_empty (p : String) (h : isDigitStr p = true) : p ≠ "" := by
  intro he
  rw [he] at h
  exact absurd h (by decide)

/-- C3 (amended): `borrow_book_by_patron` applies its checks in the
fixed order patron-id, book existence, availability, already-borrowed,
borrowing limit; the first failing check produces the corresponding
message with the state unchanged.  In particular a patron with five
open records asking for an **available** book they already hold open
gets the already-borrowed message, and asking for a different available
book gets the borrowing-limit message. -/
theorem borrow_check_order (st : LibState) (p : String) (bid : Nat) (now : Int)
    (iOk aOk : Bool) :
    (p = "" ∨ isDigitStr p = false ∨ p.length ≠ 6 →
      borrow_book_by_patron st p bid now iOk aOk =
        (st, false, "Invalid patron ID. Must be exactly 6 digits.")) ∧
    (isDigitStr p = true → p.length = 6 → get_book_by_id st bid = none →
      borrow_book_by_patron st p bid now iOk aOk = (st, false, "Book not found.")) ∧
    (∀ book, isDigitStr p = true → p.length = 6 → get_book_by_id st bid = some book →
      book.available_copies ≤ 0 →
      borrow_book_by_patron st p bid now iOk aOk =
        (st, false, "This book is currently not available.")) ∧
    (∀ book, isDigitStr p = true → p.length = 6 → get_book_by_id st bid = some book →
      0 < book.available_copies →
      (∃ r ∈ st.records, openFor p r = true ∧ r.book_id = bid) →
      borrow_book_by_patron st p bid now iOk aOk =
        (st, false, "You have already borrowed a copy of this book.")) ∧
    (∀ book, isDigitStr p = true → p.length = 6 → get_book_by_id st bid = some book →
      0 < book.available_copies →
      (¬∃ r ∈ st.records, openFor p r = true ∧ r.book_id = bid) →
      5 ≤ get_patron_borrow_count st p →
      borrow_book_by_patron st p bid now iOk aOk =
        (st, false, "You have reached the maximum borrowing limit of 5 books.")) := by
  refine ⟨fun h => ?_, fun hd hl hbk => ?_, fun book hd hl hbk hav => ?_,
    fun book hd hl hbk hav hhold => ?_, fun book hd hl hbk hav hhold hcount => ?_⟩
  · rcases h with h | h | h
    · simp [borrow_book_by_patron, h]
    · simp [borrow_book_by_patron, h]
    · simp [borrow_book_by_patron, bne_iff_ne, h]
  · have hne := isDigitStr_ne_empty p hd
    simp [borrow_book_by_patron, hd, hl, hne, hbk, beq_iff_eq]
  · have hne := isDigitStr_ne_empty p hd
    simp [borrow_book_by_patron, hd, hl, hne, hbk, hav, beq_iff_eq]
  · have hne := isDigitStr_ne_empty p hd
    have hany : (get_patron_borrowed_books st p now).any (fun r => r.book_id == bid) = true :=
      (any_borrowed_iff st p now bid).mpr hhold
    simp [borrow_book_by_patron, hd, hl, hne, hbk, not_le.mpr hav, hany, beq_iff_eq]
  · have hne := isDigitStr_ne_empty p hd
    have hany : (get_patron_borrowed_books st p now).any (fun r => r.book_id == bid) = false :=
      Bool.eq_false_iff.mpr fun hc => hhold ((any_borrowed_iff st p now bid).mp hc)
    simp [borrow_book_by_patron, hd, hl, hne, hbk, not_le.mpr hav, hany, hcount, beq_iff_eq]

theorem borrow_check_order_witness :
    borrow_book_by_patron wSt3 "123456" 1 0 true true =
      (wSt3, false, "You have already borrowed a copy of this book.") ∧
    borrow_book_by_patron wSt3 "123456" 6 0 true true =
      (wSt3, false, "You have reached the maximum borrowing limit of 5 books.") := by
  constructor
  · exact (borrow_check_order wSt3 "123456" 1 0 true true).2.2.2.1
      ⟨1, "Book One", "Author A", "1111111111111", 2, 1⟩
      (by decide) (by decide) (by decide) (by decide) (by decide)
  · exact (borrow_check_order wSt3 "123456" 6 0 true true).2.2.2.2
      ⟨6, "Book Six", "Author B", "6666666666666", 1, 1⟩
      (by decide) (by decide) (by decide) (by decide) (by decide) (by decide)

/-- C3 counterexample: patron `123456` holds five open records, among
them one for book 1, and asks to borrow book 1 again; because the
availability check runs before the already-borrowed check and book 1
has no available copy, the call fails with the not-available message,
not the already-borrowed message the claim predicts for every such
state. -/
theorem borrow_order_counterexample :
    get_patron_borrow_count ceSt3 "123456" = 5 ∧
    (∃ r ∈ ceSt3.records, openFor "123456" r = true ∧ r.book_id = 1) ∧
    borrow_book_by_patron ceSt3 "123456" 1 0 true true =
      (ceSt3, false, "This book is currently not available.") ∧
    "This book is currently not available." ≠
      "You have already borrowed a copy of this book." := by
  decide

end LibraryService

namespace LibraryService

lemma return_success_eq (st st' : LibState) (p : String) (bid : Nat) (now : Int)
    (aOk rOk : Bool) (msg : String)
    (h : return_book_by_patron st p bid now aOk rOk = (st', true, msg)) :
    (∃ r ∈ st.records, (openFor p r && r.book_id == bid) = true) ∧
    st' = ⟨(update_book_availability st bid 1).books,
           setReturnDateFirst st.records p bid now⟩ := by
  simp only [return_book_by_patron] at h
  split at h
  · simp at h
  rename_i hne
  split at h
  · simp at h
  split at h
  · simp at h
  constructor
  · have hne' : (get_patron_borrowed_books st p now).filter
        (fun row => row.book_id == bid) ≠ [] := by
      intro hc
      exact hne (List.isEmpty_iff.mpr hc)
    rw [borrowed_filter_eq] at hne'
    have hfil : st.records.filter (fun r => openFor p r && r.book_id == bid) ≠ [] := by
      intro hc
      apply hne'
      rw [hc]
      rfl
    obtain ⟨r, hr⟩ := List.exists_mem_of_ne_nil _ hfil
    obtain ⟨hmem, hpred⟩ := List.mem_filter.mp hr
    exact ⟨r, hmem, hpred⟩
  · split at h <;> (injection h with h1 h2; exact h1.symm)

lemma setReturnDateFirst_split (l : List BorrowRecord) (p : String) (bid : Nat) (t : Int)
    (h : ∃ r ∈ l, (openFor p r && r.book_id == bid) = true) :
    ∃ l1 rec l2, l = l1 ++ rec :: l2 ∧ (openFor p rec && rec.book_id == bid) = true ∧
      setReturnDateFirst l p bid t = l1 ++ ({ rec with return_date := some t }) :: l2 := by
  induction l with
  | nil =>
    obtain ⟨r, hr, _⟩ := h
    exact absurd hr (List.not_mem_nil r)
  | cons a rest ih =>
    by_cases ha : (openFor p a && a.book_id == bid) = true
    · exact ⟨[], a, rest, rfl, ha, by simp [setReturnDateFirst, ha]⟩
    · have h' : ∃ r ∈ rest, (openFor p r && r.book_id == bid) = true := by
        obtain ⟨r, hr, hpred⟩ := h
        rcases List.mem_cons.mp hr with rfl | hr'
        · exact absurd hpred ha
        · exact ⟨r, hr', hpred⟩
      obtain ⟨l1, rec, l2, heq, hpred, hset⟩ := ih h'
      exact ⟨a :: l1, rec, l2, by rw [List.cons_append, heq], hpred,
        by simp [setReturnDateFirst, ha, hset]⟩

lemma countOpen_append (l l' : List BorrowRecord) (b : Nat) :
    countOpen (l ++ l') b = countOpen l b + countOpen l' b := by
  simp [countOpen, List.filter_append]

lemma availOf_dec (st : LibState) (bid : Nat) (book : Book)
    (hbook : get_book_by_id st bid = some book) (p : String) (bd dd : Int) :
    availOf (update_book_availability (insert_borrow_record st p bid bd dd) bid (-1)) bid
      = availOf st bid - 1 := by
  have hup := get_book_by_id_update (insert_borrow_record st p bid bd dd) bid bid (-1)
  have hins : get_book_by_id (insert_borrow_record st p bid bd dd) bid =
      get_book_by_id st bid := rfl
  rw [availOf, availOf, hup, hins, hbook, Option.map_some', Option.map_some',
    if_pos (List.find?_some hbook)]
  simp [Int.sub_eq_add_neg]

/-- C2: on states satisfying the availability invariant
(`available_copies = total_copies` minus open-record count for every
book), a successful borrow appends exactly one open record and
decrements that book's `available_copies` by one, a successful return
closes exactly one open record (stamping its `return_date`) and
increments that book's `available_copies` by one, and both operations
preserve the invariant. -/
theorem availability_invariant_preserved (st st' : LibState) (p : String) (bid : Nat)
    (now : Int) (iOk aOk rOk : Bool) (msg : String) (hInv : availInvariant st) :
    (borrow_book_by_patron st p bid now iOk aOk = (st', true, msg) →
      availInvariant st' ∧
      st'.records = st.records ++ [⟨p, bid, now, now + 14 * 86400, none⟩] ∧
      availOf st' bid = availOf st bid - 1) ∧
    (return_book_by_patron st p bid now aOk rOk = (st', true, msg) →
      availInvariant st' ∧
      (∃ l1 rec l2, st.records = l1 ++ rec :: l2 ∧ rec.patron_id = p ∧ rec.book_id = bid ∧
        rec.return_date = none ∧
        st'.records = l1 ++ ({ rec with return_date := some now }) :: l2) ∧
      ((get_book_by_id st bid).isSome → availOf st' bid = availOf st bid + 1)) := by
  constructor
  · intro h
    obtain ⟨book, hbook, hst, hmsg⟩ := borrow_success_eq st st' p bid now iOk aOk msg h
    subst hst
    refine ⟨?_, rfl, availOf_dec st bid book hbook p now (now + 14 * 86400)⟩
    intro b hb
    obtain ⟨b0, hb0, rfl⟩ := List.mem_map.mp hb
    have hid : ((if b0.id == bid then
        { b0 with available_copies := b0.available_copies + (-1) } else b0) : Book).id
        = b0.id := by split <;> rfl
    have htot : ((if b0.id == bid then
        { b0 with available_copies := b0.available_copies + (-1) } else b0) : Book).total_copies
        = b0.total_copies := by split <;> rfl
    have hrec : (update_book_availability (insert_borrow_record st p bid now (now + 14 * 86400))
        bid (-1)).records = st.records ++ [⟨p, bid, now, now + 14 * 86400, none⟩] := rfl
    rw [hid, htot, hrec, countOpen_append]
    have hbase := hInv b0 hb0
    by_cases hb0id : (b0.id == bid) = true
    · have hbid : bid = b0.id := (beq_iff_eq.mp hb0id).symm
      have hone : countOpen [⟨p, bid, now, now + 14 * 86400, none⟩] b0.id = 1 := by
        simp [countOpen, List.filter_cons, hbid]
      rw [if_pos hb0id, hone]
      push_cast
      omega
    · have hbid : bid ≠ b0.id := fun hc => hb0id (beq_iff_eq.mpr hc.symm)
      have hzero : countOpen [⟨p, bid, now, now + 14 * 86400, none⟩] b0.id = 0 := by
        simp [countOpen, List.filter_cons, beq_iff_eq, hbid]
      rw [if_neg hb0id, hzero]
      simpa using hbase
  · intro h
    obtain ⟨hex, hst⟩ := return_success_eq st st' p bid now aOk rOk msg h
    obtain ⟨l1, rec, l2, hleq, hpred, hset⟩ := setReturnDateFirst_split st.records p bid now hex
    have hsplit : (rec.patron_id = p ∧ rec.return_date = none) ∧ rec.book_id = bid := by
      simpa [openFor, Bool.and_eq_true, beq_iff_eq, Option.isNone_iff_eq_none] using hpred
    have hp : rec.patron_id = p := hsplit.1.1
    have hrd : rec.return_date = none := hsplit.1.2
    have hbk : rec.book_id = bid := hsplit.2
    have hrecords : st'.records = l1 ++ ({ rec with return_date := some now }) :: l2 := by
      rw [hst]
      exact hset
    refine ⟨?_, ⟨l1, rec, l2, hleq, hp, hbk, hrd, hrecords⟩, ?_⟩
    · intro b hb
      have hbooks : st'.books =
          st.books.map (fun b => if b.id == bid then
            { b with available_copies := b.available_copies + 1 } else b) := by
        rw [hst]
        rfl
      rw [hbooks] at hb
      obtain ⟨b0, hb0, rfl⟩ := List.mem_map.mp hb
      have hid : ((if b0.id == bid then
          { b0 with available_copies := b0.available_copies + 1 } else b0) : Book).id
          = b0.id := by split <;> rfl
      have htot : ((if b0.id == bid then
          { b0 with available_copies := b0.available_copies + 1 } else b0) : Book).total_copies
          = b0.total_copies := by split <;> rfl
      have hbase := hInv b0 hb0
      have hconsl : rec :: l2 = [rec] ++ l2 := rfl
      rw [hleq, countOpen_append, hconsl, countOpen_append] at hbase
      have hconsl' : ({ rec with return_date := some now }) :: l2 =
          [({ rec with return_date := some now })] ++ l2 := rfl
      have hrec0 : countOpen [({ rec with return_date := some now })] b0.id = 0 := by
        simp [countOpen, List.filter_cons]
      rw [hid, htot, hrecords, countOpen_append, hconsl', countOpen_append, hrec0]
      by_cases hb0id : (b0.id == bid) = true
      · have hbid : bid = b0.id := (beq_iff_eq.mp hb0id).symm
        have hone : countOpen [rec] b0.id = 1 := by
          simp [countOpen, List.filter_cons, hbk, hrd, hbid]
        rw [hone] at hbase
        rw [if_pos hb0id]
        push_cast at hbase ⊢
        omega
      · have hbid : bid ≠ b0.id := fun hc => hb0id (beq_iff_eq.mpr hc.symm)
        have hzero : countOpen [rec] b0.id = 0 := by
          simp [countOpen, List.filter_cons, hbk, hrd, beq_iff_eq, hbid]
        rw [hzero] at hbase
        rw [if_neg hb0id]
        push_cast at hbase ⊢
        omega
    · intro hsome
      obtain ⟨b, hb⟩ := Option.isSome_iff_exists.mp hsome
      have hbooks_eq : get_book_by_id st' bid =
          get_book_by_id (update_book_availability st bid 1) bid := by
        rw [hst]
        rfl
      rw [availOf, availOf, hbooks_eq, get_book_by_id_update, hb, Option.map_some',
        Option.map_some', if_pos (List.find?_some hb)]
      rfl

theorem availability_invariant_preserved_witness :
    availInvariant (⟨[⟨1, "T", "A", "1111111111111", 2, 0⟩],
      [⟨"123456", 1, 0, 1209600, none⟩, ⟨"654321", 1, 0, 1209600, none⟩]⟩ : LibState) ∧
    availInvariant (⟨[⟨1, "T", "A", "1111111111111", 2, 2⟩],
      [⟨"123456", 1, 0, 1209600, some 100⟩]⟩ : LibState) := by
  constructor
  · exact ((availability_invariant_preserved stInv
      ⟨[⟨1, "T", "A", "1111111111111", 2, 0⟩],
        [⟨"123456", 1, 0, 1209600, none⟩, ⟨"654321", 1, 0, 1209600, none⟩]⟩
      "654321" 1 0 true true true
      "Successfully borrowed \"T\". Due date: 1970-01-15."
      (by unfold availInvariant; decide)).1 (by decide)).1
  · exact ((availability_invariant_preserved stInv
      ⟨[⟨1, "T", "A", "1111111111111", 2, 2⟩], [⟨"123456", 1, 0, 1209600, some 100⟩]⟩
      "123456" 1 100 true true true
      "You have successfully returned your book. There are no late fees on this book. Thank you!"
      (by unfold availInvariant; decide)).2 (by decide)).1

end LibraryService

namespace LibraryService

/-- C8: the patron status report lists exactly the patron's open
records (with book id, title, borrow and due dates), counts them, sums
the fee calculator's `fee_amount` over them (rounded to two decimals —
the identity on whole cents), and builds the borrowing history from all
of the patron's records, open and closed; the function only reads the
state, and a patron with no records gets an empty current list, zero
fees and zero count. -/
theorem patron_status_spec (st : LibState) (p : String) (now : Int) :
    (get_patron_status_report st p now).curr_borrowed_books =
      (st.records.filter (openFor p)).map
        (fun r => ⟨r.book_id, titleOf st r.book_id, r.borrow_date, r.due_date⟩) ∧
    (get_patron_status_report st p now).num_books_currently_borrowed =
      (st.records.filter (openFor p)).length ∧
    (get_patron_status_report st p now).total_late_fees_owed =
      round2 (((st.records.filter (openFor p)).map
        (fun r => (calculate_late_fee_for_book st p r.book_id now).fee_amount)).sum) ∧
    (get_patron_status_report st p now).borrowing_history =
      (st.records.filter (fun r => r.patron_id == p)).map
        (fun r => ⟨r.book_id, titleOf st r.book_id, r.return_date⟩) ∧
    (st.records.filter (fun r => r.patron_id == p) = [] →
      get_patron_status_report st p now = ⟨[], 0, 0, []⟩) := by
  refine ⟨?_, ?_, ?_, ?_, fun hall => ?_⟩
  · simp only [get_patron_status_report, get_patron_borrowed_books, openRecordsFor,
      List.map_map]
    rfl
  · simp only [get_patron_status_report, get_patron_borrowed_books, openRecordsFor,
      List.length_map]
  · simp only [get_patron_status_report, get_patron_borrowed_books, openRecordsFor,
      List.map_map]
    rfl
  · rfl
  · have hopen : st.records.filter (openFor p) = [] := by
      rw [List.filter_eq_nil_iff] at hall ⊢
      intro a ha hcon
      simp only [openFor, Bool.and_eq_true] at hcon
      exact hall a ha hcon.1
    simp [get_patron_status_report, get_patron_borrowed_books, openRecordsFor,
      get_all_patron_record, hopen, hall, round2]

theorem patron_status_spec_witness :
    get_patron_status_report ⟨[], []⟩ "123456" 0 = ⟨[], 0, 0, []⟩ :=
  (patron_status_spec ⟨[], []⟩ "123456" 0).2.2.2.2 (by decide)

end LibraryService
